import Mathlib

/-
Shallow embedding of the course/student/review Django application
(main/models.py, main/views.py, main/serializers.py, main/forms.py).

Users are identified by a numeric uid; dates are modelled as day numbers
(Nat), with `today` passed explicitly.  Database state is a record of the
four entity tables.  Fallible Python code (ORM lookups that can raise,
attribute accesses that can raise, unhandled exceptions) is modelled with
`Except PyError`.
-/

namespace DjangoHW

/-- Exceptions the Python code can raise, as an enumerated type. -/
inductive PyError
  | validationError
  | doesNotExist
  | attributeError
  | integrityError
  | typeError
  | multipleObjectsReturned
deriving DecidableEq

/-- A Django auth User: numeric id and the staff flag. -/
structure UserRec where
  uid : Nat
  is_staff : Bool
deriving DecidableEq

/-- HTTP method of a request. -/
inductive Method
  | GET
  | HEAD
  | OPTIONS
  | POST
  | PUT
  | PATCH
  | DELETE
deriving DecidableEq

/-- Course row (models.py Course): UUID pk modelled as Nat, title,
description, and the owning user's id (UserMixin foreign key). -/
structure Course where
  id : Nat
  title : String
  description : String
  userId : Nat
deriving DecidableEq

/-- Student row (models.py Student): names, date_of_receipt (day number),
owning user id. -/
structure Student where
  id : Nat
  first_name : String
  last_name : String
  date_of_receipt : Nat
  userId : Nat
deriving DecidableEq

/-- CourseToStudent join row (models.py CourseToStudent).  It has no user
field: only id, course and student foreign keys. -/
structure CourseToStudent where
  id : Nat
  courseId : Nat
  studentId : Nat
deriving DecidableEq

/-- Review row (models.py Review).  It has no user field: course and
student foreign keys, optional text, integer grade. -/
structure Review where
  id : Nat
  courseId : Nat
  studentId : Nat
  review_text : Option String
  grade : Int
deriving DecidableEq

/-- Database state: one list per table. -/
structure DB where
  courses : List Course
  students : List Student
  enrollments : List CourseToStudent
  reviews : List Review
deriving DecidableEq

/-- models.py validate_future_date: raises ValidationError exactly when the
given date is strictly after today; today itself passes. -/
def validate_future_date (today d : Nat) : Except PyError Unit :=
  if d > today then .error .validationError else .ok ()

/-- Run a list of field validators in order, stopping at the first error;
this is what Django full_clean does with a field's validators list. -/
def runValidators {α : Type} (vs : List (α → Except PyError Unit)) (x : α) :
    Except PyError Unit :=
  match vs with
  | [] => .ok ()
  | v :: rest =>
    match v x with
    | .error e => .error e
    | .ok _ => runValidators rest x

/-- Validators attached to Review.grade at the storage layer:
MinMaxIntegerField (models.py) overrides only formfield, declaring no
model-level validators, so this list is empty. -/
def gradeFieldValidators : List (Int → Except PyError Unit) := []

/-- Validators attached to Student.date_of_receipt
(models.py: validators=[validate_future_date]). -/
def dateOfReceiptValidators (today : Nat) : List (Nat → Except PyError Unit) :=
  [validate_future_date today]

/-- MinMaxIntegerField.formfield: the form field is built with min_value=1
and max_value=5, so form-level clean accepts exactly the grades in [1,5]. -/
def minMaxFormFieldClean (g : Int) : Except PyError Int :=
  if 1 ≤ g ∧ g ≤ 5 then .ok g else .error .validationError

/-- Review saved through the ORM: Django Model.save runs no field
validators, so the row is stored exactly as given. -/
def reviewSave (db : DB) (r : Review) : DB :=
  { db with reviews := db.reviews ++ [r] }

/-- The safe methods of UserAdminPermission (views.py line 34). -/
def safeMethods : List Method := [.GET, .HEAD, .OPTIONS]

/-- UserAdminPermission.has_permission: the requester must be
authenticated; the requester is `none` when anonymous. -/
def has_permission (req : Option UserRec) : Bool := req.isSome

/-- The object handed to has_object_permission: one of the four REST
entities. -/
inductive RestObj
  | courseObj : Course → RestObj
  | studentObj : Student → RestObj
  | reviewObj : Review → RestObj
  | ctsObj : CourseToStudent → RestObj
deriving DecidableEq

/-- Python attribute access target_object.user: Course and Student carry a
user field (UserMixin); Review and CourseToStudent declare none, so the
access raises AttributeError, modelled as `none` here. -/
def RestObj.userAttr : RestObj → Option Nat
  | .courseObj c => some c.userId
  | .studentObj s => some s.userId
  | .reviewObj _ => none
  | .ctsObj _ => none

/-- UserAdminPermission.has_object_permission (views.py lines 49-63): safe
methods pass; otherwise Python evaluates request.user.is_staff and, only
when that is false, target_object.user == request.user — which raises
AttributeError when the model has no user attribute. -/
def has_object_permission (u : UserRec) (m : Method) (obj : RestObj) :
    Except PyError Bool :=
  if m ∈ safeMethods then .ok true
  else if u.is_staff then .ok true
  else
    match obj.userAttr with
    | some ownerId => .ok (ownerId == u.uid)
    | none => .error .attributeError

/-- Course.objects.get(id=cid): DoesNotExist when absent. -/
def ormGetCourse (db : DB) (cid : Nat) : Except PyError Course :=
  match db.courses.find? (fun c => c.id == cid) with
  | some c => .ok c
  | none => .error .doesNotExist

/-- Student.objects.get(id=sid): DoesNotExist when absent. -/
def ormGetStudent (db : DB) (sid : Nat) : Except PyError Student :=
  match db.students.find? (fun s => s.id == sid) with
  | some s => .ok s
  | none => .error .doesNotExist

/-- Review.objects.get(id=rid): DoesNotExist when absent. -/
def ormGetReview (db : DB) (rid : Nat) : Except PyError Review :=
  match db.reviews.find? (fun r => r.id == rid) with
  | some r => .ok r
  | none => .error .doesNotExist

/-- Student.objects.get(user=u): DoesNotExist on zero matches,
MultipleObjectsReturned on more than one. -/
def ormGetStudentByUser (db : DB) (uid : Nat) : Except PyError Student :=
  match db.students.filter (fun s => s.userId == uid) with
  | [] => .error .doesNotExist
  | [s] => .ok s
  | _ => .error .multipleObjectsReturned

/-- The ad-hoc ownership check of the page handlers:
request.user == obj.user or request.user.is_staff.  An anonymous
requester compares unequal to any user and AnonymousUser.is_staff is
False. -/
def isOwnerOrStaff (req : Option UserRec) (ownerId : Nat) : Bool :=
  match req with
  | some u => u.uid == ownerId || u.is_staff
  | none => false

/-- A page handler's HTTP answer: a rendered template (status 200, with or
without an error message in the context) or a redirect (status 302). -/
inductive PageResponse
  | render (template : String) (hasError : Bool)
  | redirect (target : String)
deriving DecidableEq

/-- HTTP status of a page response. -/
def statusOf : PageResponse → Nat
  | .render _ _ => 200
  | .redirect _ => 302

/-- The POST body of the student create/edit forms (the date is already
parsed from its string form). -/
structure StudentForm where
  first_name : String
  last_name : String
  date_of_receipt : Nat
deriving DecidableEq

/-- The POST body of the course create/edit forms. -/
structure CourseForm where
  title : String
  description : String
deriving DecidableEq

/-- The POST body bound to ReviewForm (fields review_text and grade). -/
structure ReviewFormData where
  review_text : Option String
  grade : Int
deriving DecidableEq

/-- ReviewForm.is_valid: grade is bounded by the MinMaxIntegerField form
field (1..5) and review_text by its max_length of 100. -/
def reviewFormIsValid (f : ReviewFormData) : Bool :=
  1 ≤ f.grade && f.grade ≤ 5 &&
    (match f.review_text with
     | some t => t.length ≤ 100
     | none => true)

/-- views.py create_student: login_required redirects anonymous users to
login; on POST it rejects a second Student for the same user, then rejects
a date_of_receipt after today, and otherwise saves and redirects. -/
def create_student (today : Nat) (req : Option UserRec) (m : Method)
    (f : StudentForm) (newId : Nat) (db : DB) :
    Except PyError (PageResponse × DB) :=
  match req with
  | none => .ok (.redirect "login", db)
  | some u =>
    if m = .POST then
      if db.students.any (fun s => s.userId == u.uid) then
        .ok (.render "create_student.html" true, db)
      else if f.date_of_receipt > today then
        .ok (.render "create_student.html" true, db)
      else
        .ok (.redirect "students",
          { db with students := db.students ++
              [⟨newId, f.first_name, f.last_name, f.date_of_receipt, u.uid⟩] })
    else .ok (.render "create_student.html" false, db)

/-- views.py edit_student: raw get (DoesNotExist propagates); on POST an
owner or staff may edit, but a date after today is rejected with an inline
error; anyone else gets an inline error; GET renders the form. -/
def edit_student (today : Nat) (req : Option UserRec) (m : Method)
    (f : StudentForm) (sid : Nat) (db : DB) :
    Except PyError (PageResponse × DB) :=
  match ormGetStudent db sid with
  | .error e => .error e
  | .ok s =>
    if m = .POST then
      if isOwnerOrStaff req s.userId then
        if f.date_of_receipt > today then
          .ok (.render "edit_student.html" true, db)
        else
          .ok (.redirect "students",
            { db with students := db.students.map (fun t =>
                if t.id == sid then
                  { t with first_name := f.first_name,
                           last_name := f.last_name,
                           date_of_receipt := f.date_of_receipt }
                else t) })
      else .ok (.render "edit_student.html" true, db)
    else if isOwnerOrStaff req s.userId then
      .ok (.render "edit_student.html" false, db)
    else .ok (.render "edit_student.html" true, db)

/-- views.py delete_student: no method check at all; an owner or staff
requester deletes the row (cascading to its enrollments and reviews) and
is redirected; anyone else gets an inline error. -/
def delete_student (req : Option UserRec) (m : Method) (sid : Nat)
    (db : DB) : Except PyError (PageResponse × DB) :=
  match ormGetStudent db sid with
  | .error e => .error e
  | .ok s =>
    if isOwnerOrStaff req s.userId then
      .ok (.redirect "students",
        { db with students := db.students.filter (fun t => t.id != sid),
                  enrollments := db.enrollments.filter (fun e => e.studentId != sid),
                  reviews := db.reviews.filter (fun r => r.studentId != sid) })
    else .ok (.render "delete_student.html" true, db)

/-- views.py edit_course: raw get; on POST an owner or staff requester
saves title and description and is redirected; a non-owner gets an inline
error; GET renders the form. -/
def edit_course (req : Option UserRec) (m : Method) (f : CourseForm)
    (cid : Nat) (db : DB) : Except PyError (PageResponse × DB) :=
  match ormGetCourse db cid with
  | .error e => .error e
  | .ok c =>
    if m = .POST then
      if isOwnerOrStaff req c.userId then
        .ok (.redirect "courses",
          { db with courses := db.courses.map (fun t =>
              if t.id == cid then
                { t with title := f.title, description := f.description }
              else t) })
      else .ok (.render "edit_course.html" true, db)
    else .ok (.render "edit_course.html" false, db)

/-- views.py delete_course: no method check; an owner or staff requester
deletes the row (cascading to its enrollments and reviews) and is
redirected; anyone else gets an inline error. -/
def delete_course (req : Option UserRec) (m : Method) (cid : Nat)
    (db : DB) : Except PyError (PageResponse × DB) :=
  match ormGetCourse db cid with
  | .error e => .error e
  | .ok c =>
    if isOwnerOrStaff req c.userId then
      .ok (.redirect "courses",
        { db with courses := db.courses.filter (fun t => t.id != cid),
                  enrollments := db.enrollments.filter (fun e => e.courseId != cid),
                  reviews := db.reviews.filter (fun r => r.courseId != cid) })
    else .ok (.render "delete_course.html" true, db)

/-- views.py edit_review: raw get, then review_obj.student.user resolves
the owning user through the student foreign key; on POST the owner or
staff saves when the form validates (an invalid form falls through to the
plain render); a non-owner gets an inline error. -/
def edit_review (req : Option UserRec) (m : Method) (f : ReviewFormData)
    (rid : Nat) (db : DB) : Except PyError (PageResponse × DB) :=
  match ormGetReview db rid with
  | .error e => .error e
  | .ok r =>
    match ormGetStudent db r.studentId with
    | .error e => .error e
    | .ok st =>
      if m = .POST then
        if isOwnerOrStaff req st.userId then
          if reviewFormIsValid f then
            .ok (.redirect "courses",
              { db with reviews := db.reviews.map (fun t =>
                  if t.id == rid then
                    { t with review_text := f.review_text, grade := f.grade }
                  else t) })
          else .ok (.render "edit_review.html" false, db)
        else .ok (.render "edit_review.html" true, db)
      else .ok (.render "edit_review.html" false, db)

/-- views.py delete_review: no method check; the owner (through the
review's student) or staff deletes the row and is redirected; anyone else
gets an inline error. -/
def delete_review (req : Option UserRec) (m : Method) (rid : Nat)
    (db : DB) : Except PyError (PageResponse × DB) :=
  match ormGetReview db rid with
  | .error e => .error e
  | .ok r =>
    match ormGetStudent db r.studentId with
    | .error e => .error e
    | .ok st =>
      if isOwnerOrStaff req st.userId then
        .ok (.redirect "courses",
          { db with reviews := db.reviews.filter (fun t => t.id != rid) })
      else .ok (.render "reviews.html" true, db)

/-- Storage-level insert into CourseToStudent: Meta.unique_together =
(course, student) (models.py line 134) makes the database refuse a second
row with the same pair, raising IntegrityError. -/
def insertCourseToStudent (db : DB) (row : CourseToStudent) :
    Except PyError DB :=
  if db.enrollments.any (fun e =>
      e.courseId == row.courseId && e.studentId == row.studentId) then
    .error .integrityError
  else .ok { db with enrollments := db.enrollments ++ [row] }

/-- views.py enroll_course: login_required redirects anonymous users;
a requester without a Student row gets an inline error; an existing
(student, course) enrollment gets an inline error; otherwise the row is
created and the requester redirected. -/
def enroll_course (req : Option UserRec) (cid newId : Nat) (db : DB) :
    Except PyError (PageResponse × DB) :=
  match req with
  | none => .ok (.redirect "login", db)
  | some u =>
    match ormGetCourse db cid with
    | .error e => .error e
    | .ok c =>
      match ormGetStudentByUser db u.uid with
      | .error .doesNotExist => .ok (.render "create_student.html" true, db)
      | .error e => .error e
      | .ok st =>
        if db.enrollments.any (fun e =>
            e.courseId == c.id && e.studentId == st.id) then
          .ok (.render "courses.html" true, db)
        else
          match insertCourseToStudent db ⟨newId, c.id, st.id⟩ with
          | .error e => .error e
          | .ok db2 => .ok (.redirect "courses", db2)

/-- views.py unenroll_course: no login_required; after the course lookup,
the unguarded Student.objects.get(user=request.user) raises an unhandled
exception for an anonymous requester (modelled as typeError); only the
CourseToStudent lookup is wrapped in try/except DoesNotExist, which
renders an inline error; on success the row is deleted. -/
def unenroll_course (req : Option UserRec) (cid : Nat) (db : DB) :
    Except PyError (PageResponse × DB) :=
  match ormGetCourse db cid with
  | .error e => .error e
  | .ok c =>
    match req with
    | none => .error .typeError
    | some u =>
      match ormGetStudentByUser db u.uid with
      | .error e => .error e
      | .ok st =>
        match db.enrollments.filter (fun e =>
            e.courseId == c.id && e.studentId == st.id) with
        | [] => .ok (.render "courses.html" true, db)
        | [e] => .ok (.redirect "courses",
            { db with enrollments := db.enrollments.filter (fun x => x.id != e.id) })
        | _ => .error .multipleObjectsReturned

/-- A REST payload for creating a Course; userField stands for any owner
field the client may put in the body. -/
structure CoursePayload where
  title : String
  description : String
  userField : Option Nat
deriving DecidableEq

/-- A REST payload for creating a Student. -/
structure StudentPayload where
  first_name : String
  last_name : String
  date_of_receipt : Nat
  userField : Option Nat
deriving DecidableEq

/-- CourseViewSet.perform_create with CourseSerializer: the serializer's
user field is a ReadOnlyField, so the payload's owner field never reaches
validated_data; serializer.save(user=request.user) stamps the requester
as owner. -/
def coursePerformCreate (requester : UserRec) (p : CoursePayload)
    (newId : Nat) (db : DB) : DB :=
  { db with courses := db.courses ++
      [⟨newId, p.title, p.description, requester.uid⟩] }

/-- StudentViewSet.perform_create with StudentSerializer: the read-only
user field of the payload is dropped, the model validator on
date_of_receipt runs during serializer validation (a future date is a 400
ValidationError), and the requester is stamped as owner. -/
def studentRestCreate (today : Nat) (requester : UserRec)
    (p : StudentPayload) (newId : Nat) (db : DB) : Except PyError DB :=
  match validate_future_date today p.date_of_receipt with
  | .error e => .error e
  | .ok _ => .ok { db with students := db.students ++
      [⟨newId, p.first_name, p.last_name, p.date_of_receipt, requester.uid⟩] }

/-- Invariant of C3: every stored Student has date_of_receipt at or before
today. -/
def studentInvariant (today : Nat) (db : DB) : Prop :=
  ∀ s ∈ db.students, s.date_of_receipt ≤ today

/-- Invariant of C5: no two enrollment rows share the (course, student)
pair. -/
def pairUnique (db : DB) : Prop :=
  db.enrollments.Pairwise (fun a b =>
    ¬ (a.courseId = b.courseId ∧ a.studentId = b.studentId))

/-- C1: the claim says an update or delete by an authenticated non-staff
non-owner is rejected with 403 for every REST entity, and reads need only
authentication.  That holds for Course and Student, but for Review and
CourseToStudent the predicate evaluates target_object.user, an attribute
those models do not have, so it raises AttributeError (a server error)
instead of returning false. -/
theorem C1_object_permission_review_raises :
    has_object_permission ⟨7, false⟩ .DELETE (.reviewObj ⟨1, 2, 3, none, 5⟩)
        = .error .attributeError ∧
    has_object_permission ⟨7, false⟩ .PUT (.ctsObj ⟨1, 2, 3⟩)
        = .error .attributeError ∧
    has_object_permission ⟨7, false⟩ .DELETE (.courseObj ⟨1, "t", "d", 9⟩)
        = .ok false ∧
    has_object_permission ⟨7, false⟩ .PUT (.studentObj ⟨1, "a", "b", 0, 9⟩)
        = .ok false ∧
    has_object_permission ⟨7, false⟩ .GET (.reviewObj ⟨1, 2, 3, none, 5⟩)
        = .ok true :=
  ⟨rfl, rfl, rfl, rfl, rfl⟩

/-- C2 counterexample: the storage-layer validators of grade accept 10,
and a Review saved through the ORM with grade 10 is stored as-is, so a
stored row's grade can lie outside [1,5]. -/
theorem C2_counterexample :
    runValidators gradeFieldValidators 10 = .ok () ∧
    (reviewSave ⟨[], [], [], []⟩ ⟨1, 2, 3, none, 10⟩).reviews
        = [⟨1, 2, 3, none, 10⟩] ∧
    ¬ (1 ≤ (10 : Int) ∧ (10 : Int) ≤ 5) :=
  ⟨rfl, rfl, by decide⟩

/-- C2 amended: the grade range 1..5 is enforced only by the form-level
input control built by MinMaxIntegerField.formfield; the storage layer
attaches no validator to grade, so storage-layer validation accepts every
integer. -/
theorem C2_grade_range_form_level_only (g : Int) :
    (minMaxFormFieldClean g = .ok g ↔ 1 ≤ g ∧ g ≤ 5) ∧
    runValidators gradeFieldValidators g = .ok () := by
  refine ⟨?_, rfl⟩
  unfold minMaxFormFieldClean
  split_ifs with h
  · simp [h]
  · simp [h]

/-- Witness for C2's amended theorem at grade 10. -/
theorem C2_grade_range_form_level_only_witness :
    (minMaxFormFieldClean 10 = .ok 10 ↔ 1 ≤ (10 : Int) ∧ (10 : Int) ≤ 5) ∧
    runValidators gradeFieldValidators 10 = .ok () :=
  C2_grade_range_form_level_only 10

/-- C4: validate_future_date rejects with ValidationError exactly when the
date is strictly after today (today itself passes); it is the validator
attached to Student.date_of_receipt, and the page handlers create_student
and edit_student redundantly enforce the same bound before saving: their
save-and-redirect path is reached exactly when the date is at most
today. -/
theorem C4_validate_future_date (today d : Nat) (u : UserRec)
    (fn ln : String) (nid sid : Nat) (db : DB) (s : Student)
    (hnodup : db.students.any (fun t => t.userId == u.uid) = false)
    (hs : ormGetStudent db sid = .ok s)
    (hown : isOwnerOrStaff (some u) s.userId = true) :
    ((validate_future_date today d = .ok ()) ↔ d ≤ today) ∧
    ((validate_future_date today d = .error .validationError) ↔ today < d) ∧
    validate_future_date today ∈ dateOfReceiptValidators today ∧
    ((∃ db2, create_student today (some u) .POST ⟨fn, ln, d⟩ nid db
        = .ok (.redirect "students", db2)) ↔ d ≤ today) ∧
    ((∃ db2, edit_student today (some u) .POST ⟨fn, ln, d⟩ sid db
        = .ok (.redirect "students", db2)) ↔ d ≤ today) := by
  refine ⟨?_, ?_, ?_, ?_, ?_⟩
  · unfold validate_future_date
    by_cases h : d > today
    · rw [if_pos h]
      constructor
      · intro hk
        exact Except.noConfusion hk
      · intro hk
        exact absurd hk (by omega)
    · rw [if_neg h]
      simp
      omega
  · unfold validate_future_date
    by_cases h : d > today
    · rw [if_pos h]
      simp
      omega
    · rw [if_neg h]
      constructor
      · intro hk
        exact Except.noConfusion hk
      · intro hk
        exact absurd hk (by omega)
  · exact List.mem_singleton.mpr rfl
  · by_cases h : d > today
    · have hc : create_student today (some u) .POST ⟨fn, ln, d⟩ nid db
          = .ok (.render "create_student.html" true, db) := by
        simp [create_student, hnodup, h]
      rw [hc]
      simp
      omega
    · have hc : create_student today (some u) .POST ⟨fn, ln, d⟩ nid db
          = .ok (.redirect "students", { db with students := db.students ++
              [⟨nid, fn, ln, d, u.uid⟩] }) := by
        simp [create_student, hnodup, h]
      rw [hc]
      simp
      omega
  · by_cases h : d > today
    · have hc : edit_student today (some u) .POST ⟨fn, ln, d⟩ sid db
          = .ok (.render "edit_student.html" true, db) := by
        simp [edit_student, hs, hown, h]
      rw [hc]
      simp
      omega
    · have hc : edit_student today (some u) .POST ⟨fn, ln, d⟩ sid db
          = .ok (.redirect "students",
            { db with students := db.students.map (fun t =>
                if t.id == sid then
                  { t with first_name := fn, last_name := ln,
                           date_of_receipt := d }
                else t) }) := by
        simp [edit_student, hs, hown, h]
      rw [hc]
      simp
      omega

/-- Witness for C4 at today = 10, date 11, a staff requester and a
one-student database. -/
theorem C4_validate_future_date_witness :
    ((validate_future_date 10 11 = .ok ()) ↔ 11 ≤ 10) ∧
    ((validate_future_date 10 11 = .error .validationError) ↔ 10 < 11) ∧
    validate_future_date 10 ∈ dateOfReceiptValidators 10 ∧
    ((∃ db2, create_student 10 (some ⟨1, true⟩) .POST ⟨"a", "b", 11⟩ 9
        ⟨[], [⟨5, "x", "y", 3, 2⟩], [], []⟩
        = .ok (.redirect "students", db2)) ↔ 11 ≤ 10) ∧
    ((∃ db2, edit_student 10 (some ⟨1, true⟩) .POST ⟨"a", "b", 11⟩ 5
        ⟨[], [⟨5, "x", "y", 3, 2⟩], [], []⟩
        = .ok (.redirect "students", db2)) ↔ 11 ≤ 10) :=
  C4_validate_future_date 10 11 ⟨1, true⟩ "a" "b" 9 5
    ⟨[], [⟨5, "x", "y", 3, 2⟩], [], []⟩ ⟨5, "x", "y", 3, 2⟩
    (by decide) (by rfl) (by decide)

/-- C3: the page-handler create and edit of a Student both reject a
date_of_receipt strictly after today with an inline error and no write,
and whatever database either handler returns still satisfies the
invariant that every stored Student has date_of_receipt at most today. -/
theorem C3_student_date_invariant (today : Nat) (u : UserRec)
    (req : Option UserRec) (m : Method) (f : StudentForm) (nid sid : Nat)
    (db : DB) (hinv : studentInvariant today db) :
    (today < f.date_of_receipt →
        create_student today (some u) .POST f nid db
          = .ok (.render "create_student.html" true, db)) ∧
    (today < f.date_of_receipt →
        edit_student today req .POST f sid db
            = .ok (.render "edit_student.html" true, db) ∨
        edit_student today req .POST f sid db = .error .doesNotExist) ∧
    (∀ resp db2, create_student today req m f nid db = .ok (resp, db2) →
        studentInvariant today db2) ∧
    (∀ resp db2, edit_student today req m f sid db = .ok (resp, db2) →
        studentInvariant today db2) := by
  refine ⟨?_, ?_, ?_, ?_⟩
  · intro hf
    by_cases hdup : (db.students.any fun s => s.userId == u.uid) = true
    · simp [create_student, hdup]
    · simp [create_student, hdup, hf]
  · intro hf
    cases hfind : db.students.find? (fun t => t.id == sid) with
    | none =>
      right
      simp [edit_student, ormGetStudent, hfind]
    | some s =>
      left
      by_cases hown : isOwnerOrStaff req s.userId = true
      · simp [edit_student, ormGetStudent, hfind, hown, hf]
      · simp [edit_student, ormGetStudent, hfind, hown]
  · intro resp db2 h
    cases req with
    | none =>
      simp [create_student] at h
      obtain ⟨-, h2⟩ := h
      subst h2
      exact hinv
    | some v =>
      by_cases hm : m = .POST
      · subst hm
        by_cases hdup : (db.students.any fun s => s.userId == v.uid) = true
        · simp [create_student, hdup] at h
          obtain ⟨-, h2⟩ := h
          subst h2
          exact hinv
        · by_cases hfut : today < f.date_of_receipt
          · simp [create_student, hdup, hfut] at h
            obtain ⟨-, h2⟩ := h
            subst h2
            exact hinv
          · simp [create_student, hdup, hfut] at h
            obtain ⟨-, h2⟩ := h
            subst h2
            intro s hs
            rcases List.mem_append.mp hs with hmem | hmem
            · exact hinv s hmem
            · rcases List.mem_singleton.mp hmem with rfl
              simpa using Nat.le_of_not_lt hfut
      · simp [create_student, hm] at h
        obtain ⟨-, h2⟩ := h
        subst h2
        exact hinv
  · intro resp db2 h
    cases hfind : db.students.find? (fun t => t.id == sid) with
    | none =>
      simp [edit_student, ormGetStudent, hfind] at h
    | some s =>
      by_cases hown : isOwnerOrStaff req s.userId = true
      · by_cases hm : m = .POST
        · subst hm
          by_cases hfut : today < f.date_of_receipt
          · simp [edit_student, ormGetStudent, hfind, hown, hfut] at h
            obtain ⟨-, h2⟩ := h
            subst h2
            exact hinv
          · simp [edit_student, ormGetStudent, hfind, hown, hfut] at h
            obtain ⟨-, h2⟩ := h
            subst h2
            intro t ht
            rcases List.mem_map.mp ht with ⟨t0, ht0, rfl⟩
            by_cases hid : t0.id = sid
            · simp [hid]
              omega
            · simp [hid]
              exact hinv t0 ht0
        · simp [edit_student, ormGetStudent, hfind, hown, hm] at h
          obtain ⟨-, h2⟩ := h
          subst h2
          exact hinv
      · by_cases hm : m = .POST
        · simp [edit_student, ormGetStudent, hfind, hown, hm] at h
          obtain ⟨-, h2⟩ := h
          subst h2
          exact hinv
        · simp [edit_student, ormGetStudent, hfind, hown, hm] at h
          obtain ⟨-, h2⟩ := h
          subst h2
          exact hinv

/-- Witness for C3: empty database, today = 10, a form dated 11. -/
theorem C3_student_date_invariant_witness :
    (10 < (11 : Nat) →
        create_student 10 (some ⟨1, false⟩) .POST ⟨"a", "b", 11⟩ 7 ⟨[], [], [], []⟩
          = .ok (.render "create_student.html" true, ⟨[], [], [], []⟩)) ∧
    (10 < (11 : Nat) →
        edit_student 10 (some ⟨1, false⟩) .POST ⟨"a", "b", 11⟩ 5 ⟨[], [], [], []⟩
            = .ok (.render "edit_student.html" true, ⟨[], [], [], []⟩) ∨
        edit_student 10 (some ⟨1, false⟩) .POST ⟨"a", "b", 11⟩ 5 ⟨[], [], [], []⟩
            = .error .doesNotExist) ∧
    (∀ resp db2,
        create_student 10 (some ⟨1, false⟩) .POST ⟨"a", "b", 11⟩ 7 ⟨[], [], [], []⟩
          = .ok (resp, db2) → studentInvariant 10 db2) ∧
    (∀ resp db2,
        edit_student 10 (some ⟨1, false⟩) .POST ⟨"a", "b", 11⟩ 5 ⟨[], [], [], []⟩
          = .ok (resp, db2) → studentInvariant 10 db2) :=
  C3_student_date_invariant 10 ⟨1, false⟩ (some ⟨1, false⟩) .POST
    ⟨"a", "b", 11⟩ 7 5 ⟨[], [], [], []⟩ (by simp [studentInvariant])

/-- A successful unique-together insert preserves pair uniqueness. -/
theorem pairUnique_insert (db : DB) (row : CourseToStudent) (db2 : DB)
    (hu : pairUnique db) (h : insertCourseToStudent db row = .ok db2) :
    pairUnique db2 := by
  unfold insertCourseToStudent at h
  by_cases hdup : (db.enrollments.any fun e =>
      e.courseId == row.courseId && e.studentId == row.studentId) = true
  · rw [if_pos hdup] at h
    exact Except.noConfusion h
  · rw [if_neg hdup] at h
    have hall : ∀ e ∈ db.enrollments,
        ¬ (e.courseId = row.courseId ∧ e.studentId = row.studentId) := by
      intro e he hcc
      exact hdup (List.any_eq_true.mpr ⟨e, he, by simp [hcc.1, hcc.2]⟩)
    simp at h
    subst h
    unfold pairUnique at hu ⊢
    rw [List.pairwise_append]
    refine ⟨hu, List.pairwise_singleton _ _, ?_⟩
    intro a ha b hb
    rcases List.mem_singleton.mp hb with rfl
    exact hall a ha

/-- Every database enroll_course can return keeps pair uniqueness. -/
theorem enroll_preserves_pairUnique (req : Option UserRec) (cid nid : Nat)
    (db : DB) (hu : pairUnique db) :
    ∀ resp db3, enroll_course req cid nid db = .ok (resp, db3) →
      pairUnique db3 := by
  intro resp db3 h
  cases req with
  | none =>
    simp [enroll_course] at h
    obtain ⟨-, h2⟩ := h
    subst h2
    exact hu
  | some u =>
    unfold enroll_course at h
    simp only [] at h
    cases hc : ormGetCourse db cid with
    | error e =>
      rw [hc] at h
      exact Except.noConfusion h
    | ok c =>
      rw [hc] at h
      simp only [] at h
      cases hst : ormGetStudentByUser db u.uid with
      | error e =>
        rw [hst] at h
        cases e <;> simp at h
        obtain ⟨-, h2⟩ := h
        subst h2
        exact hu
      | ok st =>
        rw [hst] at h
        simp only [] at h
        by_cases hdup : (db.enrollments.any fun e =>
            e.courseId == c.id && e.studentId == st.id) = true
        · simp [hdup] at h
          obtain ⟨-, h2⟩ := h
          subst h2
          exact hu
        · simp [hdup] at h
          cases hins : insertCourseToStudent db ⟨nid, c.id, st.id⟩ with
          | error e =>
            rw [hins] at h
            exact Except.noConfusion h
          | ok dbi =>
            rw [hins] at h
            simp at h
            obtain ⟨-, h2⟩ := h
            subst h2
            exact pairUnique_insert db _ _ hu hins

/-- C5 counterexample: the storage layer itself refuses a duplicate
(course, student) pair — inserting ⟨9, 1, 2⟩ into a table already holding
the pair (1, 2) raises IntegrityError, so uniqueness is NOT enforced only
by an application-level pre-check. -/
theorem C5_counterexample :
    insertCourseToStudent ⟨[], [], [⟨0, 1, 2⟩], []⟩ ⟨9, 1, 2⟩
        = .error .integrityError :=
  rfl

/-- C5 amended: the (course, student) pair is unique — both the
storage-level unique_together constraint and the pre-check in
enroll_course preserve the uniqueness invariant, and the storage layer
rejects a duplicate with IntegrityError. -/
theorem C5_pair_uniqueness (db : DB) (row : CourseToStudent)
    (hu : pairUnique db) :
    (∀ db2, insertCourseToStudent db row = .ok db2 → pairUnique db2) ∧
    (∀ req cid nid resp db3,
        enroll_course req cid nid db = .ok (resp, db3) → pairUnique db3) ∧
    ((db.enrollments.any fun e =>
        e.courseId == row.courseId && e.studentId == row.studentId) = true →
      insertCourseToStudent db row = .error .integrityError) := by
  refine ⟨fun db2 h => pairUnique_insert db row db2 hu h,
    fun req cid nid resp db3 h =>
      enroll_preserves_pairUnique req cid nid db hu resp db3 h, ?_⟩
  intro hdup
  unfold insertCourseToStudent
  rw [if_pos hdup]

/-- Witness for C5's amended theorem on an empty database. -/
theorem C5_pair_uniqueness_witness :
    (∀ db2, insertCourseToStudent ⟨[], [], [], []⟩ ⟨1, 2, 3⟩ = .ok db2 →
        pairUnique db2) ∧
    (∀ req cid nid resp db3,
        enroll_course req cid nid ⟨[], [], [], []⟩ = .ok (resp, db3) →
          pairUnique db3) ∧
    ((DB.enrollments ⟨[], [], [], []⟩).any (fun e =>
        e.courseId == (1 : Nat) && e.studentId == (2 : Nat)) = true →
      insertCourseToStudent ⟨[], [], [], []⟩ ⟨1, 2, 3⟩
        = .error .integrityError) := by
  have h := C5_pair_uniqueness ⟨[], [], [], []⟩ ⟨1, 2, 3⟩
    (by simp [pairUnique])
  exact ⟨h.1, h.2.1, fun hx => h.2.2 hx⟩

/-- If Student.objects.get(user=uid) succeeds, a student of that user is
stored. -/
theorem studentByUser_exists (db : DB) (uid : Nat) (st : Student)
    (h : ormGetStudentByUser db uid = .ok st) :
    (db.students.any fun s => s.userId == uid) = true := by
  unfold ormGetStudentByUser at h
  cases hf : db.students.filter (fun s => s.userId == uid) with
  | nil =>
    rw [hf] at h
    exact Except.noConfusion h
  | cons a l =>
    have ha : a ∈ db.students.filter (fun s => s.userId == uid) := by
      rw [hf]
      exact List.mem_cons_self a l
    have hm := List.mem_filter.mp ha
    exact List.any_eq_true.mpr ⟨a, hm.1, hm.2⟩

/-- C6: each business-rule conflict — enrolling while already enrolled,
creating a second Student for the same user, unenrolling while not
enrolled — renders an inline error with HTTP status 200 and returns the
database unchanged. -/
theorem C6_conflicts_inline_error (today : Nat) (u : UserRec) (c : Course)
    (st : Student) (f : StudentForm) (nid : Nat) (db : DB)
    (hc : ormGetCourse db c.id = .ok c)
    (hst : ormGetStudentByUser db u.uid = .ok st) :
    ((db.enrollments.any fun e =>
        e.courseId == c.id && e.studentId == st.id) = true →
      enroll_course (some u) c.id nid db
        = .ok (.render "courses.html" true, db)) ∧
    (create_student today (some u) .POST f nid db
        = .ok (.render "create_student.html" true, db)) ∧
    (db.enrollments.filter (fun e =>
        e.courseId == c.id && e.studentId == st.id) = [] →
      unenroll_course (some u) c.id db
        = .ok (.render "courses.html" true, db)) ∧
    statusOf (.render "courses.html" true) = 200 ∧
    statusOf (.render "create_student.html" true) = 200 := by
  have hany : (db.students.any fun s => s.userId == u.uid) = true :=
    studentByUser_exists db u.uid st hst
  refine ⟨?_, ?_, ?_, rfl, rfl⟩
  · intro hdup
    unfold enroll_course
    simp only []
    rw [hc]
    simp only []
    rw [hst]
    simp only []
    simp [hdup]
  · simp [create_student, hany]
  · intro hne
    unfold unenroll_course
    simp only []
    rw [hc]
    simp only []
    rw [hst]
    simp only []
    rw [hne]

/-- Witness for C6: a database holding one course, one student of the
requesting user, and their enrollment. -/
theorem C6_conflicts_inline_error_witness :
    (((DB.enrollments ⟨[⟨2, "t", "d", 9⟩], [⟨3, "a", "b", 0, 1⟩],
        [⟨4, 2, 3⟩], []⟩).any fun e =>
        e.courseId == (2 : Nat) && e.studentId == (3 : Nat)) = true →
      enroll_course (some ⟨1, false⟩) 2 7
          ⟨[⟨2, "t", "d", 9⟩], [⟨3, "a", "b", 0, 1⟩], [⟨4, 2, 3⟩], []⟩
        = .ok (.render "courses.html" true,
            ⟨[⟨2, "t", "d", 9⟩], [⟨3, "a", "b", 0, 1⟩], [⟨4, 2, 3⟩], []⟩)) ∧
    (create_student 10 (some ⟨1, false⟩) .POST ⟨"x", "y", 5⟩ 7
          ⟨[⟨2, "t", "d", 9⟩], [⟨3, "a", "b", 0, 1⟩], [⟨4, 2, 3⟩], []⟩
        = .ok (.render "create_student.html" true,
            ⟨[⟨2, "t", "d", 9⟩], [⟨3, "a", "b", 0, 1⟩], [⟨4, 2, 3⟩], []⟩)) ∧
    ((DB.enrollments ⟨[⟨2, "t", "d", 9⟩], [⟨3, "a", "b", 0, 1⟩],
        [⟨4, 2, 3⟩], []⟩).filter (fun e =>
        e.courseId == (2 : Nat) && e.studentId == (3 : Nat)) = [] →
      unenroll_course (some ⟨1, false⟩) 2
          ⟨[⟨2, "t", "d", 9⟩], [⟨3, "a", "b", 0, 1⟩], [⟨4, 2, 3⟩], []⟩
        = .ok (.render "courses.html" true,
            ⟨[⟨2, "t", "d", 9⟩], [⟨3, "a", "b", 0, 1⟩], [⟨4, 2, 3⟩], []⟩)) ∧
    statusOf (.render "courses.html" true) = 200 ∧
    statusOf (.render "create_student.html" true) = 200 :=
  C6_conflicts_inline_error 10 ⟨1, false⟩ ⟨2, "t", "d", 9⟩
    ⟨3, "a", "b", 0, 1⟩ ⟨"x", "y", 5⟩ 7
    ⟨[⟨2, "t", "d", 9⟩], [⟨3, "a", "b", 0, 1⟩], [⟨4, 2, 3⟩], []⟩
    (by rfl) (by rfl)

/-- Updating the matching elements of a list commutes with find? when the
update preserves the predicate. -/
theorem find_map_update {α : Type} (p : α → Bool) (upd : α → α)
    (hp : ∀ a, p (upd a) = p a) :
    ∀ l : List α, (l.map fun t => if p t then upd t else t).find? p
      = (l.find? p).map upd := by
  intro l
  induction l with
  | nil => rfl
  | cons a l ih =>
    by_cases h : p a = true
    · simp [List.find?, h, hp]
    · simp [List.find?, h, hp, ih]

/-- Course-table instance of find_map_update for the edit_course write. -/
theorem find_map_update_course (cid : Nat) (cf : CourseForm)
    (l : List Course) :
    (l.map fun t => if t.id == cid then
        { t with title := cf.title, description := cf.description }
      else t).find? (fun t => t.id == cid)
      = (l.find? (fun t => t.id == cid)).map
          (fun t => { t with title := cf.title,
                             description := cf.description }) :=
  find_map_update (fun t => t.id == cid)
    (fun t => { t with title := cf.title, description := cf.description })
    (fun _ => rfl) l

/-- Student-table instance of find_map_update for the edit_student
write. -/
theorem find_map_update_student (sid : Nat) (sf : StudentForm)
    (l : List Student) :
    (l.map fun t => if t.id == sid then
        { t with first_name := sf.first_name, last_name := sf.last_name,
                 date_of_receipt := sf.date_of_receipt }
      else t).find? (fun t => t.id == sid)
      = (l.find? (fun t => t.id == sid)).map
          (fun t => { t with first_name := sf.first_name,
                             last_name := sf.last_name,
                             date_of_receipt := sf.date_of_receipt }) :=
  find_map_update (fun t => t.id == sid)
    (fun t => { t with first_name := sf.first_name,
                       last_name := sf.last_name,
                       date_of_receipt := sf.date_of_receipt })
    (fun _ => rfl) l

/-- Review-table instance of find_map_update for the edit_review write. -/
theorem find_map_update_review (rid : Nat) (rf : ReviewFormData)
    (l : List Review) :
    (l.map fun t => if t.id == rid then
        { t with review_text := rf.review_text, grade := rf.grade }
      else t).find? (fun t => t.id == rid)
      = (l.find? (fun t => t.id == rid)).map
          (fun t => { t with review_text := rf.review_text,
                             grade := rf.grade }) :=
  find_map_update (fun t => t.id == rid)
    (fun t => { t with review_text := rf.review_text, grade := rf.grade })
    (fun _ => rfl) l

/-- A successful ormGetCourse is the find? of its table. -/
theorem ormGetCourse_find (db : DB) (cid : Nat) (c : Course)
    (h : ormGetCourse db cid = .ok c) :
    db.courses.find? (fun t => t.id == cid) = some c := by
  unfold ormGetCourse at h
  cases hf : db.courses.find? (fun t => t.id == cid) with
  | none =>
    rw [hf] at h
    exact Except.noConfusion h
  | some x =>
    rw [hf] at h
    simp at h
    simp [h]

/-- A successful ormGetStudent is the find? of its table. -/
theorem ormGetStudent_find (db : DB) (sid : Nat) (s : Student)
    (h : ormGetStudent db sid = .ok s) :
    db.students.find? (fun t => t.id == sid) = some s := by
  unfold ormGetStudent at h
  cases hf : db.students.find? (fun t => t.id == sid) with
  | none =>
    rw [hf] at h
    exact Except.noConfusion h
  | some x =>
    rw [hf] at h
    simp at h
    simp [h]

/-- A successful ormGetReview is the find? of its table. -/
theorem ormGetReview_find (db : DB) (rid : Nat) (r : Review)
    (h : ormGetReview db rid = .ok r) :
    db.reviews.find? (fun t => t.id == rid) = some r := by
  unfold ormGetReview at h
  cases hf : db.reviews.find? (fun t => t.id == rid) with
  | none =>
    rw [hf] at h
    exact Except.noConfusion h
  | some x =>
    rw [hf] at h
    simp at h
    simp [h]

/-- C7: a page-handler edit of a Course, Student, or Review by an
authenticated user who is neither the owner nor staff leaves the database
unchanged and renders an inline error; a staff user's edit with valid
input succeeds and the stored row carries the new field values. -/
theorem C7_ownership_gate (today : Nat) (u adm : UserRec)
    (c : Course) (s : Student) (r : Review) (rst : Student)
    (cf : CourseForm) (sf : StudentForm) (rf : ReviewFormData) (db : DB)
    (hc : ormGetCourse db c.id = .ok c)
    (hs : ormGetStudent db s.id = .ok s)
    (hr : ormGetReview db r.id = .ok r)
    (hrst : ormGetStudent db r.studentId = .ok rst)
    (hustaff : u.is_staff = false)
    (huc : u.uid ≠ c.userId) (hus : u.uid ≠ s.userId)
    (hur : u.uid ≠ rst.userId)
    (hadm : adm.is_staff = true)
    (hdate : sf.date_of_receipt ≤ today)
    (hrf : reviewFormIsValid rf = true) :
    (edit_course (some u) .POST cf c.id db
        = .ok (.render "edit_course.html" true, db)) ∧
    (edit_student today (some u) .POST sf s.id db
        = .ok (.render "edit_student.html" true, db)) ∧
    (edit_review (some u) .POST rf r.id db
        = .ok (.render "edit_review.html" true, db)) ∧
    (∃ db2, edit_course (some adm) .POST cf c.id db
        = .ok (.redirect "courses", db2) ∧
      db2.courses.find? (fun t => t.id == c.id)
        = some { c with title := cf.title,
                        description := cf.description }) ∧
    (∃ db2, edit_student today (some adm) .POST sf s.id db
        = .ok (.redirect "students", db2) ∧
      db2.students.find? (fun t => t.id == s.id)
        = some { s with first_name := sf.first_name,
                        last_name := sf.last_name,
                        date_of_receipt := sf.date_of_receipt }) ∧
    (∃ db2, edit_review (some adm) .POST rf r.id db
        = .ok (.redirect "courses", db2) ∧
      db2.reviews.find? (fun t => t.id == r.id)
        = some { r with review_text := rf.review_text,
                        grade := rf.grade }) := by
  have hnd : ¬ (today < sf.date_of_receipt) := Nat.not_lt.mpr hdate
  refine ⟨?_, ?_, ?_, ?_, ?_, ?_⟩
  · simp [edit_course, hc, isOwnerOrStaff, hustaff, huc]
  · simp [edit_student, hs, isOwnerOrStaff, hustaff, hus]
  · simp [edit_review, hr, hrst, isOwnerOrStaff, hustaff, hur]
  · refine ⟨{ db with courses := db.courses.map (fun t =>
        if t.id == c.id then
          { t with title := cf.title, description := cf.description }
        else t) }, ?_, ?_⟩
    · simp [edit_course, hc, isOwnerOrStaff, hadm]
    · rw [show ({ db with courses := db.courses.map (fun t =>
          if t.id == c.id then
            { t with title := cf.title, description := cf.description }
          else t) } : DB).courses = db.courses.map (fun t =>
          if t.id == c.id then
            { t with title := cf.title, description := cf.description }
          else t) from rfl]
      rw [find_map_update_course, ormGetCourse_find db c.id c hc]
      rfl
  · refine ⟨{ db with students := db.students.map (fun t =>
        if t.id == s.id then
          { t with first_name := sf.first_name, last_name := sf.last_name,
                   date_of_receipt := sf.date_of_receipt }
        else t) }, ?_, ?_⟩
    · simp [edit_student, hs, isOwnerOrStaff, hadm, hnd]
    · rw [show ({ db with students := db.students.map (fun t =>
          if t.id == s.id then
            { t with first_name := sf.first_name, last_name := sf.last_name,
                     date_of_receipt := sf.date_of_receipt }
          else t) } : DB).students = db.students.map (fun t =>
          if t.id == s.id then
            { t with first_name := sf.first_name, last_name := sf.last_name,
                     date_of_receipt := sf.date_of_receipt }
          else t) from rfl]
      rw [find_map_update_student, ormGetStudent_find db s.id s hs]
      rfl
  · refine ⟨{ db with reviews := db.reviews.map (fun t =>
        if t.id == r.id then
          { t with review_text := rf.review_text, grade := rf.grade }
        else t) }, ?_, ?_⟩
    · simp [edit_review, hr, hrst, isOwnerOrStaff, hadm, hrf]
    · rw [show ({ db with reviews := db.reviews.map (fun t =>
          if t.id == r.id then
            { t with review_text := rf.review_text, grade := rf.grade }
          else t) } : DB).reviews = db.reviews.map (fun t =>
          if t.id == r.id then
            { t with review_text := rf.review_text, grade := rf.grade }
          else t) from rfl]
      rw [find_map_update_review, ormGetReview_find db r.id r hr]
      rfl

/-- Witness for C7: one course, one student, one review; requester uid 5
is neither owner (uid 2) nor staff; uid 6 is staff. -/
theorem C7_ownership_gate_witness :
    (edit_course (some ⟨5, false⟩) .POST ⟨"nt", "nd"⟩ (Course.id ⟨1, "t", "d", 2⟩)
        ⟨[⟨1, "t", "d", 2⟩], [⟨2, "a", "b", 3, 2⟩], [], [⟨3, 1, 2, none, 5⟩]⟩
        = .ok (.render "edit_course.html" true,
            ⟨[⟨1, "t", "d", 2⟩], [⟨2, "a", "b", 3, 2⟩], [], [⟨3, 1, 2, none, 5⟩]⟩)) ∧
    (edit_student 10 (some ⟨5, false⟩) .POST ⟨"x", "y", 4⟩
        (Student.id ⟨2, "a", "b", 3, 2⟩)
        ⟨[⟨1, "t", "d", 2⟩], [⟨2, "a", "b", 3, 2⟩], [], [⟨3, 1, 2, none, 5⟩]⟩
        = .ok (.render "edit_student.html" true,
            ⟨[⟨1, "t", "d", 2⟩], [⟨2, "a", "b", 3, 2⟩], [], [⟨3, 1, 2, none, 5⟩]⟩)) ∧
    (edit_review (some ⟨5, false⟩) .POST ⟨none, 4⟩ (Review.id ⟨3, 1, 2, none, 5⟩)
        ⟨[⟨1, "t", "d", 2⟩], [⟨2, "a", "b", 3, 2⟩], [], [⟨3, 1, 2, none, 5⟩]⟩
        = .ok (.render "edit_review.html" true,
            ⟨[⟨1, "t", "d", 2⟩], [⟨2, "a", "b", 3, 2⟩], [], [⟨3, 1, 2, none, 5⟩]⟩)) ∧
    (∃ db2, edit_course (some ⟨6, true⟩) .POST ⟨"nt", "nd"⟩
        (Course.id ⟨1, "t", "d", 2⟩)
        ⟨[⟨1, "t", "d", 2⟩], [⟨2, "a", "b", 3, 2⟩], [], [⟨3, 1, 2, none, 5⟩]⟩
        = .ok (.redirect "courses", db2) ∧
      db2.courses.find? (fun t => t.id == Course.id ⟨1, "t", "d", 2⟩)
        = some { (⟨1, "t", "d", 2⟩ : Course) with
                 title := CourseForm.title ⟨"nt", "nd"⟩,
                 description := CourseForm.description ⟨"nt", "nd"⟩ }) ∧
    (∃ db2, edit_student 10 (some ⟨6, true⟩) .POST ⟨"x", "y", 4⟩
        (Student.id ⟨2, "a", "b", 3, 2⟩)
        ⟨[⟨1, "t", "d", 2⟩], [⟨2, "a", "b", 3, 2⟩], [], [⟨3, 1, 2, none, 5⟩]⟩
        = .ok (.redirect "students", db2) ∧
      db2.students.find? (fun t => t.id == Student.id ⟨2, "a", "b", 3, 2⟩)
        = some { (⟨2, "a", "b", 3, 2⟩ : Student) with
                 first_name := StudentForm.first_name ⟨"x", "y", 4⟩,
                 last_name := StudentForm.last_name ⟨"x", "y", 4⟩,
                 date_of_receipt := StudentForm.date_of_receipt ⟨"x", "y", 4⟩ }) ∧
    (∃ db2, edit_review (some ⟨6, true⟩) .POST ⟨none, 4⟩
        (Review.id ⟨3, 1, 2, none, 5⟩)
        ⟨[⟨1, "t", "d", 2⟩], [⟨2, "a", "b", 3, 2⟩], [], [⟨3, 1, 2, none, 5⟩]⟩
        = .ok (.redirect "courses", db2) ∧
      db2.reviews.find? (fun t => t.id == Review.id ⟨3, 1, 2, none, 5⟩)
        = some { (⟨3, 1, 2, none, 5⟩ : Review) with
                 review_text := ReviewFormData.review_text ⟨none, 4⟩,
                 grade := ReviewFormData.grade ⟨none, 4⟩ }) :=
  C7_ownership_gate 10 ⟨5, false⟩ ⟨6, true⟩ ⟨1, "t", "d", 2⟩
    ⟨2, "a", "b", 3, 2⟩ ⟨3, 1, 2, none, 5⟩ ⟨2, "a", "b", 3, 2⟩
    ⟨"nt", "nd"⟩ ⟨"x", "y", 4⟩ ⟨none, 4⟩
    ⟨[⟨1, "t", "d", 2⟩], [⟨2, "a", "b", 3, 2⟩], [], [⟨3, 1, 2, none, 5⟩]⟩
    (by rfl) (by rfl) (by rfl) (by rfl) (by rfl)
    (by decide) (by decide) (by decide) (by rfl) (by decide) (by decide)

/-- C8: a REST create of a Course or Student stores the authenticated
requester as owner; the outcome is identical for payloads that differ
only in their owner field, since the serializer's user field is
read-only. -/
theorem C8_rest_create_stamps_owner (today : Nat) (req : UserRec)
    (pc : CoursePayload) (ps : StudentPayload) (x y : Option Nat)
    (nid : Nat) (db : DB) :
    coursePerformCreate req pc nid db
        = coursePerformCreate req { pc with userField := x } nid db ∧
    (⟨nid, pc.title, pc.description, req.uid⟩ : Course)
        ∈ (coursePerformCreate req pc nid db).courses ∧
    studentRestCreate today req ps nid db
        = studentRestCreate today req { ps with userField := y } nid db ∧
    (∀ db2, studentRestCreate today req ps nid db = .ok db2 →
      (⟨nid, ps.first_name, ps.last_name, ps.date_of_receipt, req.uid⟩ : Student)
        ∈ db2.students) := by
  refine ⟨rfl, ?_, rfl, ?_⟩
  · simp [coursePerformCreate]
  · intro db2 h
    unfold studentRestCreate at h
    cases hv : validate_future_date today ps.date_of_receipt with
    | error e =>
      rw [hv] at h
      exact Except.noConfusion h
    | ok a =>
      rw [hv] at h
      simp at h
      subst h
      simp

/-- Witness for C8 with payloads that carry owner field 99 while user 4
makes the request. -/
theorem C8_rest_create_stamps_owner_witness :
    coursePerformCreate ⟨4, false⟩ ⟨"t", "d", some 99⟩ 8 ⟨[], [], [], []⟩
        = coursePerformCreate ⟨4, false⟩
            { (⟨"t", "d", some 99⟩ : CoursePayload) with userField := none }
            8 ⟨[], [], [], []⟩ ∧
    (⟨8, CoursePayload.title ⟨"t", "d", some 99⟩,
        CoursePayload.description ⟨"t", "d", some 99⟩, 4⟩ : Course)
        ∈ (coursePerformCreate ⟨4, false⟩ ⟨"t", "d", some 99⟩ 8
            ⟨[], [], [], []⟩).courses ∧
    studentRestCreate 10 ⟨4, false⟩ ⟨"a", "b", 3, some 99⟩ 8 ⟨[], [], [], []⟩
        = studentRestCreate 10 ⟨4, false⟩
            { (⟨"a", "b", 3, some 99⟩ : StudentPayload) with userField := none }
            8 ⟨[], [], [], []⟩ ∧
    (∀ db2, studentRestCreate 10 ⟨4, false⟩ ⟨"a", "b", 3, some 99⟩ 8
        ⟨[], [], [], []⟩ = .ok db2 →
      (⟨8, StudentPayload.first_name ⟨"a", "b", 3, some 99⟩,
          StudentPayload.last_name ⟨"a", "b", 3, some 99⟩,
          StudentPayload.date_of_receipt ⟨"a", "b", 3, some 99⟩, 4⟩ : Student)
        ∈ db2.students) :=
  C8_rest_create_stamps_owner 10 ⟨4, false⟩ ⟨"t", "d", some 99⟩
    ⟨"a", "b", 3, some 99⟩ none none 8 ⟨[], [], [], []⟩

/-- C9: delete_student, delete_course and delete_review never inspect the
request method — any two methods give identical results — and a plain GET
by the owner deletes the row and redirects to the list page. -/
theorem C9_delete_ignores_method (req : Option UserRec) (m m2 : Method)
    (u : UserRec) (s : Student) (c : Course) (r : Review) (rst : Student)
    (db : DB)
    (hs : ormGetStudent db s.id = .ok s)
    (hc : ormGetCourse db c.id = .ok c)
    (hr : ormGetReview db r.id = .ok r)
    (hrst : ormGetStudent db r.studentId = .ok rst)
    (hus : isOwnerOrStaff (some u) s.userId = true)
    (huc : isOwnerOrStaff (some u) c.userId = true)
    (hur : isOwnerOrStaff (some u) rst.userId = true) :
    (delete_student req m s.id db = delete_student req m2 s.id db) ∧
    (delete_course req m c.id db = delete_course req m2 c.id db) ∧
    (delete_review req m r.id db = delete_review req m2 r.id db) ∧
    (∃ db2, delete_student (some u) .GET s.id db
        = .ok (.redirect "students", db2) ∧
      db2.students.all (fun t => t.id != s.id) = true) ∧
    (∃ db2, delete_course (some u) .GET c.id db
        = .ok (.redirect "courses", db2) ∧
      db2.courses.all (fun t => t.id != c.id) = true) ∧
    (∃ db2, delete_review (some u) .GET r.id db
        = .ok (.redirect "courses", db2) ∧
      db2.reviews.all (fun t => t.id != r.id) = true) := by
  refine ⟨rfl, rfl, rfl, ?_, ?_, ?_⟩
  · refine ⟨{ db with
        students := db.students.filter (fun t => t.id != s.id),
        enrollments := db.enrollments.filter (fun e => e.studentId != s.id),
        reviews := db.reviews.filter (fun r2 => r2.studentId != s.id) },
      ?_, ?_⟩
    · simp [delete_student, hs, hus]
    · rw [List.all_eq_true]
      intro t ht
      exact (List.mem_filter.mp ht).2
  · refine ⟨{ db with
        courses := db.courses.filter (fun t => t.id != c.id),
        enrollments := db.enrollments.filter (fun e => e.courseId != c.id),
        reviews := db.reviews.filter (fun r2 => r2.courseId != c.id) },
      ?_, ?_⟩
    · simp [delete_course, hc, huc]
    · rw [List.all_eq_true]
      intro t ht
      exact (List.mem_filter.mp ht).2
  · refine ⟨{ db with
        reviews := db.reviews.filter (fun t => t.id != r.id) }, ?_, ?_⟩
    · simp [delete_review, hr, hrst, hur]
    · rw [List.all_eq_true]
      intro t ht
      exact (List.mem_filter.mp ht).2

/-- Witness for C9: user 2 owns the course, the student and (through the
student) the review; the compared methods are POST and DELETE. -/
theorem C9_delete_ignores_method_witness :
    (delete_student (some ⟨2, false⟩) .POST (Student.id ⟨7, "a", "b", 3, 2⟩)
        ⟨[⟨1, "t", "d", 2⟩], [⟨7, "a", "b", 3, 2⟩], [], [⟨8, 1, 7, none, 5⟩]⟩
      = delete_student (some ⟨2, false⟩) .DELETE (Student.id ⟨7, "a", "b", 3, 2⟩)
        ⟨[⟨1, "t", "d", 2⟩], [⟨7, "a", "b", 3, 2⟩], [], [⟨8, 1, 7, none, 5⟩]⟩) ∧
    (delete_course (some ⟨2, false⟩) .POST (Course.id ⟨1, "t", "d", 2⟩)
        ⟨[⟨1, "t", "d", 2⟩], [⟨7, "a", "b", 3, 2⟩], [], [⟨8, 1, 7, none, 5⟩]⟩
      = delete_course (some ⟨2, false⟩) .DELETE (Course.id ⟨1, "t", "d", 2⟩)
        ⟨[⟨1, "t", "d", 2⟩], [⟨7, "a", "b", 3, 2⟩], [], [⟨8, 1, 7, none, 5⟩]⟩) ∧
    (delete_review (some ⟨2, false⟩) .POST (Review.id ⟨8, 1, 7, none, 5⟩)
        ⟨[⟨1, "t", "d", 2⟩], [⟨7, "a", "b", 3, 2⟩], [], [⟨8, 1, 7, none, 5⟩]⟩
      = delete_review (some ⟨2, false⟩) .DELETE (Review.id ⟨8, 1, 7, none, 5⟩)
        ⟨[⟨1, "t", "d", 2⟩], [⟨7, "a", "b", 3, 2⟩], [], [⟨8, 1, 7, none, 5⟩]⟩) ∧
    (∃ db2, delete_student (some ⟨2, false⟩) .GET (Student.id ⟨7, "a", "b", 3, 2⟩)
        ⟨[⟨1, "t", "d", 2⟩], [⟨7, "a", "b", 3, 2⟩], [], [⟨8, 1, 7, none, 5⟩]⟩
        = .ok (.redirect "students", db2) ∧
      db2.students.all (fun t => t.id != Student.id ⟨7, "a", "b", 3, 2⟩) = true) ∧
    (∃ db2, delete_course (some ⟨2, false⟩) .GET (Course.id ⟨1, "t", "d", 2⟩)
        ⟨[⟨1, "t", "d", 2⟩], [⟨7, "a", "b", 3, 2⟩], [], [⟨8, 1, 7, none, 5⟩]⟩
        = .ok (.redirect "courses", db2) ∧
      db2.courses.all (fun t => t.id != Course.id ⟨1, "t", "d", 2⟩) = true) ∧
    (∃ db2, delete_review (some ⟨2, false⟩) .GET (Review.id ⟨8, 1, 7, none, 5⟩)
        ⟨[⟨1, "t", "d", 2⟩], [⟨7, "a", "b", 3, 2⟩], [], [⟨8, 1, 7, none, 5⟩]⟩
        = .ok (.redirect "courses", db2) ∧
      db2.reviews.all (fun t => t.id != Review.id ⟨8, 1, 7, none, 5⟩) = true) :=
  C9_delete_ignores_method (some ⟨2, false⟩) .POST .DELETE ⟨2, false⟩
    ⟨7, "a", "b", 3, 2⟩ ⟨1, "t", "d", 2⟩ ⟨8, 1, 7, none, 5⟩ ⟨7, "a", "b", 3, 2⟩
    ⟨[⟨1, "t", "d", 2⟩], [⟨7, "a", "b", 3, 2⟩], [], [⟨8, 1, 7, none, 5⟩]⟩
    (by rfl) (by rfl) (by rfl) (by rfl) (by decide) (by decide) (by decide)

/-- C10: unenroll_course lacks the login-required guard of enroll_course:
an anonymous request reaches the unguarded lookup of the requester's
Student row and raises an unhandled exception (server error), while the
same anonymous request to enroll_course is redirected to the login
page. -/
theorem C10_unenroll_unauthenticated_crashes (cid nid : Nat) (db : DB)
    (c : Course) (hc : ormGetCourse db cid = .ok c) :
    unenroll_course none cid db = .error .typeError ∧
    enroll_course none cid nid db = .ok (.redirect "login", db) := by
  constructor
  · unfold unenroll_course
    rw [hc]
  · rfl

/-- Witness for C10 on a database holding course 1. -/
theorem C10_unenroll_unauthenticated_crashes_witness :
    unenroll_course none 1 ⟨[⟨1, "t", "d", 2⟩], [], [], []⟩
        = .error .typeError ∧
    enroll_course none 1 5 ⟨[⟨1, "t", "d", 2⟩], [], [], []⟩
        = .ok (.redirect "login", ⟨[⟨1, "t", "d", 2⟩], [], [], []⟩) :=
  C10_unenroll_unauthenticated_crashes 1 5 ⟨[⟨1, "t", "d", 2⟩], [], [], []⟩
    ⟨1, "t", "d", 2⟩ (by rfl)

end DjangoHW
